import Mathlib

/-!
Shallow embedding of the selection / autoscroll engine of the `spread1`
spreadsheet repository (`src/app/hooks/useSpreadsheetSelection.ts`, both
revisions, and the extracted scroll hook `useSpreadsheetScroll` in
`src/unnamed/part_002`).

Pixel quantities are modelled as rationals (`ℚ`), cell indices as integers
(`ℤ`).  The React `useState`/`useRef` cells of the hook are collected into an
explicit `SelState` record, and each event handler becomes a state-transition
function.  The requestAnimationFrame autoscroll loop becomes the step function
`scrollStep` together with its iteration `runScroll`.
-/

namespace Spread1

/-- Constant `ROW_HEIGHT = 24` from the source. -/
def ROW_HEIGHT : ℚ := 24

/-- Constant `COLUMN_WIDTH = 100` from the source. -/
def COLUMN_WIDTH : ℚ := 100

/-- Constant `SCROLL_ZONE_THRESHOLD = 50` from the source. -/
def SCROLL_ZONE_THRESHOLD : ℚ := 50

/-- Constant `BASE_SCROLL_SPEED = 2` from the source. -/
def BASE_SCROLL_SPEED : ℚ := 2

/-- Constant `MAX_SCROLL_SPEED = 30` from the source. -/
def MAX_SCROLL_SPEED : ℚ := 30

/-- `CellPosition { row, col }` from the source. -/
structure CellPosition where
  row : ℤ
  col : ℤ
deriving DecidableEq

/-- `CellRange { start, end }` from the source (`end` is a Lean keyword, so the
field is written `«end»`). -/
structure CellRange where
  start : CellPosition
  «end» : CellPosition
deriving DecidableEq

/-- The four scroll directions of the `ScrollState.direction` union type
(`'left' | 'right' | 'up' | 'down'`); `null` is modelled by `Option`. -/
inductive Direction
  | left
  | right
  | up
  | down
deriving DecidableEq

/-- `ScrollState { isScrolling, direction, speed }` from the source. -/
structure ScrollState where
  isScrolling : Bool
  direction : Option Direction
  speed : ℚ
deriving DecidableEq

/-- `ScrollZone { left, right, top, bottom, threshold }` from the source. -/
structure ScrollZone where
  left : ℚ
  right : ℚ
  top : ℚ
  bottom : ℚ
  threshold : ℚ
deriving DecidableEq

/-- `calculateScrollDirection(mouseX, mouseY, zone)` from the source
(identical in both `useSpreadsheetSelection` revisions and in
`useSpreadsheetScroll`).  The source initialises a single mutable
`direction`/`speed` pair, runs the horizontal `if/else if`, then the vertical
`if/else if` over the same pair, so a vertical hit overwrites a horizontal
one; this is mirrored by computing the horizontal pair first and letting the
vertical branches replace it. -/
def calculateScrollDirection (mouseX mouseY : ℚ) (zone : ScrollZone) : ScrollState :=
  let horiz : Option Direction × ℚ :=
    if mouseX < zone.left + zone.threshold then
      (some Direction.left,
        min MAX_SCROLL_SPEED (BASE_SCROLL_SPEED + (zone.left + zone.threshold - mouseX) / 10))
    else if zone.right - zone.threshold < mouseX then
      (some Direction.right,
        min MAX_SCROLL_SPEED (BASE_SCROLL_SPEED + (mouseX - (zone.right - zone.threshold)) / 10))
    else (none, 0)
  let vert : Option Direction × ℚ :=
    if mouseY < zone.top + zone.threshold then
      (some Direction.up,
        min MAX_SCROLL_SPEED (BASE_SCROLL_SPEED + (zone.top + zone.threshold - mouseY) / 10))
    else if zone.bottom - zone.threshold < mouseY then
      (some Direction.down,
        min MAX_SCROLL_SPEED (BASE_SCROLL_SPEED + (mouseY - (zone.bottom - zone.threshold)) / 10))
    else horiz
  { isScrolling := vert.1.isSome, direction := vert.1, speed := vert.2 }

/-- The column half of the coordinate mapper, from `handleMouseMove` /
`onScroll`:
`Math.min(Math.max(0, Math.floor((mouseX + scrollLeft) / COLUMN_WIDTH)), columnCount - 1)`. -/
def colAt (mouseX scrollLeft : ℚ) (columnCount : ℤ) : ℤ :=
  min (max 0 ⌊(mouseX + scrollLeft) / COLUMN_WIDTH⌋) (columnCount - 1)

/-- The row half of the coordinate mapper, from `handleMouseMove` /
`onScroll`:
`Math.min(Math.max(0, Math.floor((mouseY + scrollTop) / ROW_HEIGHT)), rowCount - 1)`. -/
def rowAt (mouseY scrollTop : ℚ) (rowCount : ℤ) : ℤ :=
  min (max 0 ⌊(mouseY + scrollTop) / ROW_HEIGHT⌋) (rowCount - 1)

/-- The full coordinate mapper `cellAt(pixelX, pixelY, scrollLeft, scrollTop)`
(the `col`/`row` computation pair of `handleMouseMove`). -/
def cellAt (mouseX mouseY scrollLeft scrollTop : ℚ) (rowCount columnCount : ℤ) : CellPosition :=
  ⟨rowAt mouseY scrollTop rowCount, colAt mouseX scrollLeft columnCount⟩

/-- `isCellSelected(row, col)` from the source: inside the normalized
rectangle when a `selectionRange` exists, equality with `selectedCell`
otherwise (`selectedCell?.row === row && selectedCell?.col === col` is `false`
when `selectedCell` is `null`). -/
def isCellSelected (selectedCell : Option CellPosition) (selectionRange : Option CellRange)
    (row col : ℤ) : Bool :=
  match selectionRange with
  | some r =>
    let minRow := min r.start.row r.«end».row
    let maxRow := max r.start.row r.«end».row
    let minCol := min r.start.col r.«end».col
    let maxCol := max r.start.col r.«end».col
    decide (minRow ≤ row) && decide (row ≤ maxRow) &&
      decide (minCol ≤ col) && decide (col ≤ maxCol)
  | none =>
    match selectedCell with
    | some a => decide (a.row = row) && decide (a.col = col)
    | none => false

/-- The `headerDragTypeRef` values (`'row' | 'column'`; `null` is `Option`). -/
inductive HeaderKind
  | row
  | column
deriving DecidableEq

/-- The selection-relevant mutable state of the hook: the `useState` cells
`selectedCell` / `selectionRange` and the refs `isDraggingRef`,
`headerDragTypeRef`, `isHeaderDragRef`, `lastMousePositionRef` (only the
relative `x`/`y` pair of the latter is kept here; the cached viewport
rectangle is carried separately in the scroll-loop model). -/
structure SelState where
  selectedCell : Option CellPosition
  selectionRange : Option CellRange
  isDragging : Bool
  headerDragType : Option HeaderKind
  isHeaderDrag : Bool
  lastMouse : Option (ℚ × ℚ)
deriving DecidableEq

/-- The initial hook state: both `useState` cells start at `null`, all drag
refs cleared. -/
def initState : SelState :=
  { selectedCell := none
    selectionRange := none
    isDragging := false
    headerDragType := none
    isHeaderDrag := false
    lastMouse := none }

/-- `handleMouseDown(row, col, shiftKey)` from the source, restricted to its
selection-state effect (the trailing scroll-into-view block only calls
`grid.scrollToPosition` and touches no selection state).  Ignored entirely
while `isHeaderDragRef` is set; with shift and a non-null `selectedCell` the
new range anchors at `selectedCell`, otherwise both fields collapse to
`(row, col)`. -/
def handleMouseDown (row col : ℤ) (shiftKey : Bool) (s : SelState) : SelState :=
  if s.isHeaderDrag then s
  else
    let s1 := { s with isDragging := true }
    if shiftKey then
      match s1.selectedCell with
      | some sc => { s1 with selectionRange := some ⟨sc, ⟨row, col⟩⟩ }
      | none =>
        { s1 with
          selectedCell := some ⟨row, col⟩
          selectionRange := some ⟨⟨row, col⟩, ⟨row, col⟩⟩ }
    else
      { s1 with
        selectedCell := some ⟨row, col⟩
        selectionRange := some ⟨⟨row, col⟩, ⟨row, col⟩⟩ }

/-- `handleHeaderMouseDown(index, isRow, shiftKey)` from the source,
restricted to its selection-state effect (the scroll-into-view blocks touch no
selection state). -/
def handleHeaderMouseDown (index : ℤ) (isRow shiftKey : Bool)
    (rowCount columnCount : ℤ) (s : SelState) : SelState :=
  let s1 :=
    { s with
      isDragging := true
      headerDragType := some (if isRow then HeaderKind.row else HeaderKind.column)
      isHeaderDrag := true }
  if isRow then
    if shiftKey then
      match s1.selectionRange with
      | some prev =>
        { s1 with selectionRange := some ⟨prev.start, ⟨index, columnCount - 1⟩⟩ }
      | none =>
        { s1 with
          selectedCell := some ⟨index, 0⟩
          selectionRange := some ⟨⟨index, 0⟩, ⟨index, columnCount - 1⟩⟩ }
    else
      { s1 with
        selectedCell := some ⟨index, 0⟩
        selectionRange := some ⟨⟨index, 0⟩, ⟨index, columnCount - 1⟩⟩ }
  else
    if shiftKey then
      match s1.selectionRange with
      | some prev =>
        { s1 with selectionRange := some ⟨prev.start, ⟨rowCount - 1, index⟩⟩ }
      | none =>
        { s1 with
          selectedCell := some ⟨0, index⟩
          selectionRange := some ⟨⟨0, index⟩, ⟨rowCount - 1, index⟩⟩ }
    else
      { s1 with
        selectedCell := some ⟨0, index⟩
        selectionRange := some ⟨⟨0, index⟩, ⟨rowCount - 1, index⟩⟩ }

/-- `handleMouseUp` from the source: clears all drag refs (`stopScrolling` /
`cancelAnimationFrame` has no selection-state effect). -/
def handleMouseUp (s : SelState) : SelState :=
  { s with isDragging := false, headerDragType := none, isHeaderDrag := false }

/-- The range-update block shared verbatim by `handleMouseMove` and the
`onScroll` callback of `useSpreadsheetScroll`: builds the new range from the
previous one, locking the column span for row-header drags and the row span
for column-header drags. -/
def nextRange (headerDrag : Option HeaderKind) (rowCount columnCount row col : ℤ)
    (prev : CellRange) : CellRange :=
  match headerDrag with
  | some HeaderKind.row => ⟨prev.start, ⟨row, columnCount - 1⟩⟩
  | some HeaderKind.column => ⟨prev.start, ⟨rowCount - 1, col⟩⟩
  | none => ⟨prev.start, ⟨row, col⟩⟩

/-- The selection effect of `handleMouseMove` (second revision; the first
revision additionally skips the update while `newScrollState.isScrolling`,
which leaves the state unchanged): guard on `isDraggingRef`, zero the mouse
coordinate of the locked axis for header drags, cache the mouse position,
map pixels to a cell and update the range / active cell; a `null` previous
range stays `null`. -/
def applySelectionMove (rowCount columnCount : ℤ) (mouseX mouseY scrollLeft scrollTop : ℚ)
    (s : SelState) : SelState :=
  if s.isDragging = false then s
  else
    let mx := if s.headerDragType = some HeaderKind.row then 0 else mouseX
    let my := if s.headerDragType = some HeaderKind.column then 0 else mouseY
    let s1 := { s with lastMouse := some (mx, my) }
    let col := colAt mx scrollLeft columnCount
    let row := rowAt my scrollTop rowCount
    match s1.selectionRange with
    | none => s1
    | some prev =>
      let nr := nextRange s1.headerDragType rowCount columnCount row col prev
      { s1 with selectionRange := some nr, selectedCell := some nr.«end» }

/-- The `onScroll` callback given to `useSpreadsheetScroll` (second revision):
while dragging with a cached mouse position, re-derive the cell from the
cached pointer offset and the newly committed scroll offsets and commit the
updated range / active cell; a `null` previous range stays `null`. -/
def onScrollUpdate (rowCount columnCount : ℤ) (scrollLeft scrollTop : ℚ)
    (s : SelState) : SelState :=
  if s.isDragging = false then s
  else
    match s.lastMouse with
    | none => s
    | some (mx, my) =>
      let col := colAt mx scrollLeft columnCount
      let row := rowAt my scrollTop rowCount
      match s.selectionRange with
      | none => s
      | some prev =>
        let nr := nextRange s.headerDragType rowCount columnCount row col prev
        { s with selectionRange := some nr, selectedCell := some nr.«end» }

/-- The keys `moveCell` handles
(`'ArrowUp' | 'ArrowDown' | 'ArrowLeft' | 'ArrowRight' | 'Home' | 'End'`). -/
inductive NavKey
  | arrowUp
  | arrowDown
  | arrowLeft
  | arrowRight
  | home
  | endKey
deriving DecidableEq

/-- The `switch (key)` block of `moveCell`: the clamped target cell of one
keyboard navigation step. -/
def navTarget (key : NavKey) (ctrlKey : Bool) (rowCount columnCount : ℤ)
    (sc : CellPosition) : CellPosition :=
  match key with
  | NavKey.arrowUp => ⟨max 0 (sc.row - 1), sc.col⟩
  | NavKey.arrowDown => ⟨min (rowCount - 1) (sc.row + 1), sc.col⟩
  | NavKey.arrowLeft => ⟨sc.row, max 0 (sc.col - 1)⟩
  | NavKey.arrowRight => ⟨sc.row, min (columnCount - 1) (sc.col + 1)⟩
  | NavKey.home => if ctrlKey then ⟨0, 0⟩ else ⟨sc.row, 0⟩
  | NavKey.endKey =>
    if ctrlKey then ⟨rowCount - 1, columnCount - 1⟩ else ⟨sc.row, columnCount - 1⟩

/-- `moveCell(key, ctrlKey, shiftKey)` continued: no-op without a
`selectedCell` or when the clamped target equals the current cell; with shift
and an existing range the range end is extended, otherwise both fields
collapse to the target. -/
def moveCell (key : NavKey) (ctrlKey shiftKey : Bool) (rowCount columnCount : ℤ)
    (s : SelState) : SelState :=
  match s.selectedCell with
  | none => s
  | some sc =>
    let newPos : CellPosition := navTarget key ctrlKey rowCount columnCount sc
    if newPos.row = sc.row ∧ newPos.col = sc.col then s
    else
      match shiftKey, s.selectionRange with
      | true, some prev =>
        { s with
          selectionRange := some ⟨prev.start, newPos⟩
          selectedCell := some newPos }
      | _, _ =>
        { s with
          selectedCell := some newPos
          selectionRange := some ⟨newPos, newPos⟩ }

/-- The scroll container's bounding rectangle (`DOMRect`), as cached by
`lastMousePositionRef` and used by the autoscroll step for the content-size
clamp. -/
structure Rect where
  left : ℚ
  right : ℚ
  top : ℚ
  bottom : ℚ
  width : ℚ
  height : ℚ
deriving DecidableEq

/-- The cached `lastMousePositionRef` payload of the scroll hook:
`{ x, y, rect }`. -/
structure MousePos where
  x : ℚ
  y : ℚ
  rect : Rect
deriving DecidableEq

/-- The scroll container's current offsets (`container.scrollLeft` /
`container.scrollTop`). -/
structure ScrollOffsets where
  scrollLeft : ℚ
  scrollTop : ℚ
deriving DecidableEq

/-- The environment one `scroll()` animation step reads: the drag flag, the
availability of `gridRef.current`, the cached pointer position, the captured
`scrollState` (direction and speed), and the grid configuration. -/
structure ScrollEnv where
  isDragging : Bool
  gridAvailable : Bool
  lastMousePosition : Option MousePos
  direction : Option Direction
  speed : ℚ
  rowCount : ℤ
  columnCount : ℤ
  defaultRowHeight : ℚ
  defaultColumnWidth : ℚ
deriving DecidableEq

/-- The `switch (direction)` block of `scroll()`: signed per-axis speeds
(`scrollSpeedX`, `scrollSpeedY`). -/
def signedSpeeds (direction : Option Direction) (speed : ℚ) : ℚ × ℚ :=
  match direction with
  | some Direction.left => (-speed, 0)
  | some Direction.right => (speed, 0)
  | some Direction.up => (0, -speed)
  | some Direction.down => (0, speed)
  | none => (0, 0)

/-- Outcome of one `scroll()` animation step.  `terminated` is the early
`return` (nothing committed, nothing rescheduled).  `stepped offsets committed
reschedule` records the clamped new offsets, whether they differed from the
current ones (the guard under which `scrollToPosition` and the `onScroll`
selection commit fire), and whether a further frame is scheduled
(`direction !== null`). -/
inductive StepResult
  | terminated
  | stepped (offsets : ScrollOffsets) (committed : Bool) (reschedule : Bool)
deriving DecidableEq

/-- The body of `scroll()` in `startScrolling` (`useSpreadsheetScroll`, and
identically the first revision's in-hook copy): early-return when the drag
flag, the grid reference or the cached pointer position is gone; otherwise
clamp `currentOffset + signedSpeed` into
`[0, count * size - rect.{width,height}]` per axis. -/
def scrollStep (env : ScrollEnv) (cur : ScrollOffsets) : StepResult :=
  match env.lastMousePosition with
  | none => StepResult.terminated
  | some pos =>
    if env.isDragging = false ∨ env.gridAvailable = false then StepResult.terminated
    else
      let sp := signedSpeeds env.direction env.speed
      let maxScrollLeft := (env.columnCount : ℚ) * env.defaultColumnWidth - pos.rect.width
      let maxScrollTop := (env.rowCount : ℚ) * env.defaultRowHeight - pos.rect.height
      let newScrollLeft := max 0 (min maxScrollLeft (cur.scrollLeft + sp.1))
      let newScrollTop := max 0 (min maxScrollTop (cur.scrollTop + sp.2))
      StepResult.stepped ⟨newScrollLeft, newScrollTop⟩
        (decide (¬(newScrollLeft = cur.scrollLeft ∧ newScrollTop = cur.scrollTop)))
        (decide (env.direction ≠ none))

/-- Iterating the autoscroll loop: each frame applies `scrollStep` to the
offsets committed by the previous frame; a terminated step leaves the offsets
unchanged (the loop is over). -/
def runScroll (env : ScrollEnv) (cur : ScrollOffsets) : ℕ → ScrollOffsets
  | 0 => cur
  | n + 1 =>
    match scrollStep env (runScroll env cur n) with
    | StepResult.terminated => runScroll env cur n
    | StepResult.stepped off _ _ => off

/-- A pointer-move trace: each entry is `(mouseX, mouseY, scrollLeft,
scrollTop)` for one `mousemove` event, applied in order. -/
def applyMoves (rowCount columnCount : ℤ) (moves : List (ℚ × ℚ × ℚ × ℚ))
    (s : SelState) : SelState :=
  moves.foldl
    (fun st m => applySelectionMove rowCount columnCount m.1 m.2.1 m.2.2.1 m.2.2.2 st) s

/-- The invariant a shift-free row-header gesture maintains: the drag kind
stays `row` and any present range pins `start.col = 0` and
`end.col = columnCount - 1`. -/
def RowDragInv (columnCount : ℤ) (s : SelState) : Prop :=
  s.headerDragType = some HeaderKind.row ∧
  ∀ r, s.selectionRange = some r → r.start.col = 0 ∧ r.«end».col = columnCount - 1

/-! ## Concrete instances used by witnesses and counterexamples -/

/-- A viewport zone for a 1000×1000 bounding rectangle with the source's
50-pixel threshold. -/
def zoneC2 : ScrollZone := ⟨0, 1000, 0, 1000, 50⟩

/-- A cached pointer position: 250 px right of / 10 px below the container's
top-left corner, with a 200×200 viewport rectangle. -/
def posC1 : MousePos := ⟨250, 10, ⟨0, 200, 0, 200, 200, 200⟩⟩

/-- A live rightward-autoscroll environment over a 10×10 grid of 100×24
cells (content 1000×240, viewport 200×200, so `maxScrollLeft = 800` and
`maxScrollTop = 40`). -/
def envC1 : ScrollEnv :=
  { isDragging := true
    gridAvailable := true
    lastMousePosition := some posC1
    direction := some Direction.right
    speed := 5
    rowCount := 10
    columnCount := 10
    defaultRowHeight := 24
    defaultColumnWidth := 100 }

/-- A mid-drag selection state anchored at `(0,2)` with the pointer cached at
`(250, 10)`. -/
def selC1 : SelState :=
  { selectedCell := some ⟨0, 2⟩
    selectionRange := some ⟨⟨0, 2⟩, ⟨0, 2⟩⟩
    isDragging := true
    headerDragType := none
    isHeaderDrag := false
    lastMouse := some (250, 10) }

/-- The cached pointer position used by the C5 witness. -/
def posC5 : MousePos := ⟨250, 10, ⟨0, 200, 0, 200, 200, 200⟩⟩

/-- A live rightward-autoscroll environment used by the C5 witness. -/
def envC5 : ScrollEnv :=
  { isDragging := true
    gridAvailable := true
    lastMousePosition := some posC5
    direction := some Direction.right
    speed := 5
    rowCount := 10
    columnCount := 10
    defaultRowHeight := 24
    defaultColumnWidth := 100 }

/-- An autoscroll environment whose grid reference is gone (`gridRef.current`
is `null`), used by the C8 witness. -/
def envC8 : ScrollEnv :=
  { isDragging := true
    gridAvailable := false
    lastMousePosition := some ⟨250, 10, ⟨0, 200, 0, 200, 200, 200⟩⟩
    direction := some Direction.right
    speed := 5
    rowCount := 10
    columnCount := 10
    defaultRowHeight := 24
    defaultColumnWidth := 100 }

/-! ## Helper lemmas -/

lemma speed_expr_ok (dir : Direction) {d : ℚ} (hd : 0 < d) :
    0 ≤ min MAX_SCROLL_SPEED (BASE_SCROLL_SPEED + d / 10) ∧
    min MAX_SCROLL_SPEED (BASE_SCROLL_SPEED + d / 10) ≤ MAX_SCROLL_SPEED ∧
    (some dir = (none : Option Direction) ↔
      min MAX_SCROLL_SPEED (BASE_SCROLL_SPEED + d / 10) = 0) := by
  have hpos : 0 < min MAX_SCROLL_SPEED (BASE_SCROLL_SPEED + d / 10) := by
    apply lt_min
    · norm_num [MAX_SCROLL_SPEED]
    · have h10 : 0 < d / 10 := by positivity
      unfold BASE_SCROLL_SPEED
      linarith
  refine ⟨hpos.le, min_le_left _ _, ?_, ?_⟩
  · intro h
    exact (Option.some_ne_none dir h).elim
  · intro h
    exact absurd h (ne_of_gt hpos)

/-! ## Theorems for the claims -/

/-- C6: the coordinate mapper clamps `floor((pixel + scroll) / size)` to the
grid bounds, and inverts the pixel formula: for a valid `(row, col)` and
in-cell offsets `0 ≤ εx < COLUMN_WIDTH`, `0 ≤ εy < ROW_HEIGHT`, mapping the
pixel of that cell with zero scroll offsets yields exactly `(row, col)`. -/
theorem C6_cellAt_inverts (row col rowCount columnCount : ℤ) (εx εy : ℚ)
    (hr0 : 0 ≤ row) (hr1 : row < rowCount)
    (hc0 : 0 ≤ col) (hc1 : col < columnCount)
    (hex0 : 0 ≤ εx) (hex1 : εx < COLUMN_WIDTH)
    (hey0 : 0 ≤ εy) (hey1 : εy < ROW_HEIGHT) :
    cellAt ((col : ℚ) * COLUMN_WIDTH + εx) ((row : ℚ) * ROW_HEIGHT + εy) 0 0
      rowCount columnCount = ⟨row, col⟩ := by
  have hW : (0 : ℚ) < COLUMN_WIDTH := by norm_num [COLUMN_WIDTH]
  have hH : (0 : ℚ) < ROW_HEIGHT := by norm_num [ROW_HEIGHT]
  have hx : ((col : ℚ) * COLUMN_WIDTH + εx + 0) / COLUMN_WIDTH
      = εx / COLUMN_WIDTH + (col : ℚ) := by
    field_simp
    ring
  have hy : ((row : ℚ) * ROW_HEIGHT + εy + 0) / ROW_HEIGHT
      = εy / ROW_HEIGHT + (row : ℚ) := by
    field_simp
    ring
  have hfx : ⌊εx / COLUMN_WIDTH⌋ = 0 := by
    rw [Int.floor_eq_zero_iff]
    exact ⟨div_nonneg hex0 hW.le, by rwa [div_lt_one hW]⟩
  have hfy : ⌊εy / ROW_HEIGHT⌋ = 0 := by
    rw [Int.floor_eq_zero_iff]
    exact ⟨div_nonneg hey0 hH.le, by rwa [div_lt_one hH]⟩
  unfold cellAt colAt rowAt
  rw [hx, hy, Int.floor_add_int, Int.floor_add_int, hfx, hfy]
  simp only [zero_add]
  rw [max_eq_right hr0, max_eq_right hc0,
    min_eq_left (by omega : row ≤ rowCount - 1),
    min_eq_left (by omega : col ≤ columnCount - 1)]

/-- Witness for C6 at `(row, col) = (2, 3)` in a 10×10 grid with in-cell
offsets `εx = 50`, `εy = 10`. -/
theorem C6_witness :
    cellAt (((3 : ℤ) : ℚ) * COLUMN_WIDTH + 50) (((2 : ℤ) : ℚ) * ROW_HEIGHT + 10) 0 0
      10 10 = ⟨2, 3⟩ :=
  C6_cellAt_inverts 2 3 10 10 50 10 (by norm_num) (by norm_num) (by norm_num)
    (by norm_num) (by norm_num) (by norm_num [COLUMN_WIDTH]) (by norm_num)
    (by norm_num [ROW_HEIGHT])

/-- C7: for every pointer position and zone, the computed speed lies in
`[0, MAX_SCROLL_SPEED]`, and the direction is `null` exactly when the speed is
`0`: each triggered branch produces a strictly positive clamped speed and the
untriggered fall-through produces `(null, 0)`. -/
theorem C7_speed_direction_consistent (mouseX mouseY : ℚ) (zone : ScrollZone) :
    0 ≤ (calculateScrollDirection mouseX mouseY zone).speed ∧
    (calculateScrollDirection mouseX mouseY zone).speed ≤ MAX_SCROLL_SPEED ∧
    ((calculateScrollDirection mouseX mouseY zone).direction = none ↔
      (calculateScrollDirection mouseX mouseY zone).speed = 0) := by
  by_cases h1 : mouseY < zone.top + zone.threshold
  · simp only [calculateScrollDirection, if_pos h1]
    exact speed_expr_ok Direction.up (by linarith)
  · by_cases h2 : zone.bottom - zone.threshold < mouseY
    · simp only [calculateScrollDirection, if_neg h1, if_pos h2]
      exact speed_expr_ok Direction.down (by linarith)
    · by_cases h3 : mouseX < zone.left + zone.threshold
      · simp only [calculateScrollDirection, if_neg h1, if_neg h2, if_pos h3]
        exact speed_expr_ok Direction.left (by linarith)
      · by_cases h4 : zone.right - zone.threshold < mouseX
        · simp only [calculateScrollDirection, if_neg h1, if_neg h2, if_neg h3, if_pos h4]
          exact speed_expr_ok Direction.right (by linarith)
        · simp only [calculateScrollDirection, if_neg h1, if_neg h2, if_neg h3, if_neg h4]
          exact ⟨le_refl 0, by norm_num [MAX_SCROLL_SPEED], by simp⟩

/-- C10: `isCellSelected` is invariant under swapping the range's `start` and
`end`; with a range it holds exactly on the normalized rectangle, with only an
active cell it holds exactly on that cell, and with neither it is `false`. -/
theorem C10_isCellSelected_normalized (ac : Option CellPosition) (r : CellRange)
    (a : CellPosition) (row col : ℤ) :
    (isCellSelected ac (some r) row col
        = isCellSelected ac (some ⟨r.«end», r.start⟩) row col) ∧
    (isCellSelected ac (some r) row col = true ↔
      (min r.start.row r.«end».row ≤ row ∧ row ≤ max r.start.row r.«end».row ∧
        min r.start.col r.«end».col ≤ col ∧ col ≤ max r.start.col r.«end».col)) ∧
    (isCellSelected (some a) none row col = true ↔ a.row = row ∧ a.col = col) ∧
    (isCellSelected none none row col = false) := by
  refine ⟨?_, ?_, ?_, rfl⟩
  · simp [isCellSelected, min_comm, max_comm]
  · simp [isCellSelected, and_assoc]
  · simp [isCellSelected]

/-- The `start` field of the shared range-update block never differs from the
previous range's `start`, whatever the header-drag kind. -/
lemma nextRange_start (headerDrag : Option HeaderKind) (rowCount columnCount row col : ℤ)
    (prev : CellRange) :
    (nextRange headerDrag rowCount columnCount row col prev).start = prev.start := by
  cases headerDrag with
  | none => rfl
  | some k => cases k <;> rfl

/-- C3 counterexample: click `(0,0)`, release, extend twice with shift+Down
(so the previous gesture's anchor — the previous `selectionRange.start` — is
`(0,0)` while `selectedCell` ends at `(2,0)`), then shift-click `(5,5)`.  The
code anchors the new range at `selectedCell = (2,0)`, not at the previous
anchor `(0,0)`. -/
theorem C3_counterexample :
    (moveCell NavKey.arrowDown false true 1000 10 (moveCell NavKey.arrowDown false true 1000 10
        (handleMouseUp (handleMouseDown 0 0 false initState)))).selectionRange
      = some ⟨⟨0, 0⟩, ⟨2, 0⟩⟩ ∧
    (moveCell NavKey.arrowDown false true 1000 10 (moveCell NavKey.arrowDown false true 1000 10
        (handleMouseUp (handleMouseDown 0 0 false initState)))).selectedCell
      = some ⟨2, 0⟩ ∧
    (handleMouseDown 5 5 true
        (moveCell NavKey.arrowDown false true 1000 10 (moveCell NavKey.arrowDown false true 1000 10
          (handleMouseUp (handleMouseDown 0 0 false initState))))).selectionRange
      = some ⟨⟨2, 0⟩, ⟨5, 5⟩⟩ ∧
    (handleMouseDown 5 5 true
        (moveCell NavKey.arrowDown false true 1000 10 (moveCell NavKey.arrowDown false true 1000 10
          (handleMouseUp (handleMouseDown 0 0 false initState))))).selectionRange
      ≠ some ⟨⟨0, 0⟩, ⟨5, 5⟩⟩ := by
  decide

/-- C3 (amended): on a shift pointer-down on `(row, col)` while `selectedCell`
is set and no header drag is in progress, the new range has
`start = selectedCell` (the active cell, not the previous range's `start`) and
`end = (row, col)`. -/
theorem C3_shift_anchors_at_active_cell (row col : ℤ) (s : SelState) (sc : CellPosition)
    (hhd : s.isHeaderDrag = false) (hsc : s.selectedCell = some sc) :
    (handleMouseDown row col true s).selectionRange = some ⟨sc, ⟨row, col⟩⟩ := by
  simp [handleMouseDown, hhd, hsc]

/-- Witness for C3's amended theorem: active cell `(2,2)`, previous range
`{(0,0) → (2,2)}`, shift-click `(5,5)`. -/
theorem C3_witness :
    (handleMouseDown 5 5 true
        { initState with
          selectedCell := some ⟨2, 2⟩
          selectionRange := some ⟨⟨0, 0⟩, ⟨2, 2⟩⟩ }).selectionRange
      = some ⟨⟨2, 2⟩, ⟨5, 5⟩⟩ :=
  C3_shift_anchors_at_active_cell 5 5 _ ⟨2, 2⟩ rfl rfl

/-- C4 counterexample: click `(3,5)` (anchor `(3,5)`), release, then
shift-click row header 7 in a 1000×10 grid.  The produced range keeps the old
anchor's column 5, so its column span is `[5, 9]`, not `[0, 9]`. -/
theorem C4_counterexample :
    ((handleHeaderMouseDown 7 true true 1000 10
          (handleMouseUp (handleMouseDown 3 5 false initState))).selectionRange).map
        (fun r => (min r.start.col r.«end».col, max r.start.col r.«end».col))
      = some (5, 9) ∧ (5 : ℤ) ≠ 0 := by
  decide

lemma rowDragInv_down (index rowCount columnCount : ℤ) (shiftKey : Bool) (s : SelState)
    (h : shiftKey = false ∨ s.selectionRange = none) :
    RowDragInv columnCount
      (handleHeaderMouseDown index true shiftKey rowCount columnCount s) := by
  cases shiftKey with
  | false =>
    refine ⟨by simp [handleHeaderMouseDown], fun r hr => ?_⟩
    simp [handleHeaderMouseDown] at hr
    simp [← hr]
  | true =>
    have hn : s.selectionRange = none := by
      rcases h with h | h
      · exact absurd h (by simp)
      · exact h
    refine ⟨by simp [handleHeaderMouseDown, hn], fun r hr => ?_⟩
    simp [handleHeaderMouseDown, hn] at hr
    simp [← hr]

lemma rowDragInv_move (rowCount columnCount : ℤ) (mx my sl st : ℚ) (s : SelState)
    (h : RowDragInv columnCount s) :
    RowDragInv columnCount (applySelectionMove rowCount columnCount mx my sl st s) := by
  obtain ⟨hh, hr⟩ := h
  unfold applySelectionMove
  by_cases hd : s.isDragging = false
  · rw [if_pos hd]
    exact ⟨hh, hr⟩
  · rw [if_neg hd]
    cases hsr : s.selectionRange with
    | none =>
      refine ⟨by simp [hh], fun r hrr => ?_⟩
      simp [hsr] at hrr
    | some prev =>
      refine ⟨by simp [hh], fun r hrr => ?_⟩
      simp only [hsr, hh] at hrr
      simp only [nextRange, Option.some.injEq] at hrr
      subst hrr
      exact ⟨(hr prev hsr).1, rfl⟩

lemma rowDragInv_moves (rowCount columnCount : ℤ) (moves : List (ℚ × ℚ × ℚ × ℚ)) :
    ∀ s : SelState, RowDragInv columnCount s →
      RowDragInv columnCount (applyMoves rowCount columnCount moves s) := by
  induction moves with
  | nil => exact fun s h => h
  | cons m tl ih =>
    intro s h
    exact ih _ (rowDragInv_move rowCount columnCount m.1 m.2.1 m.2.2.1 m.2.2.2 s h)

/-- C4 (amended): a row-header drag gesture started without shift — or with
shift but no existing selection — only ever produces ranges whose column span
is the full `[0, columnCount - 1]`, at the pointer-down itself and after every
subsequent pointer-move. -/
theorem C4_rowHeader_full_span (rowCount columnCount index : ℤ) (shiftKey : Bool)
    (s : SelState) (moves : List (ℚ × ℚ × ℚ × ℚ)) (r : CellRange)
    (hcc : 1 ≤ columnCount)
    (hstart : shiftKey = false ∨ s.selectionRange = none)
    (hr : (applyMoves rowCount columnCount moves
        (handleHeaderMouseDown index true shiftKey rowCount columnCount s)).selectionRange
      = some r) :
    min r.start.col r.«end».col = 0 ∧ max r.start.col r.«end».col = columnCount - 1 := by
  have hinv := rowDragInv_moves rowCount columnCount moves _
    (rowDragInv_down index rowCount columnCount shiftKey s hstart)
  obtain ⟨h0, h1⟩ := hinv.2 r hr
  omega

/-- Witness for C4's amended theorem: plain row-header down on row 1 of a 5×3
grid (empty move trace). -/
theorem C4_witness :
    min ((⟨⟨1, 0⟩, ⟨1, 2⟩⟩ : CellRange)).start.col
        ((⟨⟨1, 0⟩, ⟨1, 2⟩⟩ : CellRange)).«end».col = 0 ∧
    max ((⟨⟨1, 0⟩, ⟨1, 2⟩⟩ : CellRange)).start.col
        ((⟨⟨1, 0⟩, ⟨1, 2⟩⟩ : CellRange)).«end».col = 3 - 1 :=
  C4_rowHeader_full_span 5 3 1 false initState [] ⟨⟨1, 0⟩, ⟨1, 2⟩⟩
    (by norm_num) (Or.inl rfl) (by decide)

/-- C9: within a gesture, the three range-rewriting transitions — a drag
pointer-move, an autoscroll `onScroll` recomputation, and a shift+arrow
extension — all preserve `selectionRange.start`: whenever a range is present
before the transition, the range after it exists and has the same `start`. -/
theorem C9_start_preserved (rowCount columnCount : ℤ) (mx my sl st : ℚ)
    (key : NavKey) (ctrl : Bool) (s : SelState) (r : CellRange)
    (h : s.selectionRange = some r) :
    ((applySelectionMove rowCount columnCount mx my sl st s).selectionRange).map
        CellRange.start = some r.start ∧
    ((onScrollUpdate rowCount columnCount sl st s).selectionRange).map
        CellRange.start = some r.start ∧
    ((moveCell key ctrl true rowCount columnCount s).selectionRange).map
        CellRange.start = some r.start := by
  refine ⟨?_, ?_, ?_⟩
  · unfold applySelectionMove
    by_cases hd : s.isDragging = false
    · simp [hd, h]
    · simp [hd, h, nextRange_start]
  · unfold onScrollUpdate
    by_cases hd : s.isDragging = false
    · simp [hd, h]
    · cases hm : s.lastMouse with
      | none => simp [hd, hm, h]
      | some p => simp [hd, hm, h, nextRange_start]
  · unfold moveCell
    cases hsc : s.selectedCell with
    | none => simp [h]
    | some sc =>
      by_cases hnp : (navTarget key ctrl rowCount columnCount sc).row = sc.row ∧
          (navTarget key ctrl rowCount columnCount sc).col = sc.col
      · simp [hnp, h]
      · simp [hnp, h]

/-- Witness for C9 at a mid-drag state with range `{(1,1) → (2,2)}`. -/
theorem C9_witness :
    ((applySelectionMove 10 10 250 10 0 0
          { selectedCell := some ⟨2, 2⟩
            selectionRange := some ⟨⟨1, 1⟩, ⟨2, 2⟩⟩
            isDragging := true
            headerDragType := none
            isHeaderDrag := false
            lastMouse := some (250, 10) }).selectionRange).map
        CellRange.start = some ⟨1, 1⟩ ∧
    ((onScrollUpdate 10 10 0 0
          { selectedCell := some ⟨2, 2⟩
            selectionRange := some ⟨⟨1, 1⟩, ⟨2, 2⟩⟩
            isDragging := true
            headerDragType := none
            isHeaderDrag := false
            lastMouse := some (250, 10) }).selectionRange).map
        CellRange.start = some ⟨1, 1⟩ ∧
    ((moveCell NavKey.arrowDown false true 10 10
          { selectedCell := some ⟨2, 2⟩
            selectionRange := some ⟨⟨1, 1⟩, ⟨2, 2⟩⟩
            isDragging := true
            headerDragType := none
            isHeaderDrag := false
            lastMouse := some (250, 10) }).selectionRange).map
        CellRange.start = some ⟨1, 1⟩ :=
  C9_start_preserved 10 10 250 10 0 0 NavKey.arrowDown false _ ⟨⟨1, 1⟩, ⟨2, 2⟩⟩ rfl

/-- C2 counterexample: the pointer `(10, 10)` lies in the left edge zone
(`10 < left + threshold = 50`) and the top edge zone simultaneously, yet the
returned state carries the single direction `up` — the vertical branch has
overwritten the horizontal one, and no horizontal direction is reported
alongside it. -/
theorem C2_counterexample :
    (10 : ℚ) < zoneC2.left + zoneC2.threshold ∧
    (10 : ℚ) < zoneC2.top + zoneC2.threshold ∧
    (calculateScrollDirection 10 10 zoneC2).direction = some Direction.up ∧
    (calculateScrollDirection 10 10 zoneC2).direction ≠ some Direction.left := by
  refine ⟨by norm_num [zoneC2], by norm_num [zoneC2], ?_, ?_⟩
  · norm_num [calculateScrollDirection, zoneC2]
  · norm_num [calculateScrollDirection, zoneC2]
    simp

/-- C2 (amended): `ScrollState` holds a single direction per call; whenever
the pointer is in a vertical edge zone the returned direction is the vertical
one (`up` or `down`), regardless of any horizontal edge zone it also occupies,
so simultaneous per-axis directions (diagonal autoscroll) are never
reported. -/
theorem C2_vertical_overrides_horizontal (mouseX mouseY : ℚ) (zone : ScrollZone)
    (h : mouseY < zone.top + zone.threshold ∨ zone.bottom - zone.threshold < mouseY) :
    (calculateScrollDirection mouseX mouseY zone).direction = some Direction.up ∨
    (calculateScrollDirection mouseX mouseY zone).direction = some Direction.down := by
  by_cases h1 : mouseY < zone.top + zone.threshold
  · left
    simp [calculateScrollDirection, h1]
  · right
    have h2 : zone.bottom - zone.threshold < mouseY := h.resolve_left h1
    simp [calculateScrollDirection, h1, h2]

/-- Witness for C2's amended theorem at pointer `(10, 10)` (top-left corner
region of `zoneC2`). -/
theorem C2_witness :
    (calculateScrollDirection 10 10 zoneC2).direction = some Direction.up ∨
    (calculateScrollDirection 10 10 zoneC2).direction = some Direction.down :=
  C2_vertical_overrides_horizontal 10 10 zoneC2 (Or.inl (by norm_num [zoneC2]))

/-- C5: whatever direction and speed are in effect and wherever the cached
pointer lies, a non-terminated autoscroll step commits offsets inside
`[0, contentSize - viewportSize]` per axis, with `0` standing in when that
interval is empty (`content < viewport`), where the content size is
`columnCount * defaultColumnWidth` (resp. `rowCount * defaultRowHeight`) and
the viewport size is the cached bounding rectangle's width (resp. height). -/
theorem C5_scroll_offsets_clamped (env : ScrollEnv) (cur : ScrollOffsets) (pos : MousePos)
    (off : ScrollOffsets) (c rs : Bool)
    (hpos : env.lastMousePosition = some pos)
    (hstep : scrollStep env cur = StepResult.stepped off c rs) :
    0 ≤ off.scrollLeft ∧
    off.scrollLeft ≤ max 0 ((env.columnCount : ℚ) * env.defaultColumnWidth - pos.rect.width) ∧
    0 ≤ off.scrollTop ∧
    off.scrollTop ≤ max 0 ((env.rowCount : ℚ) * env.defaultRowHeight - pos.rect.height) := by
  unfold scrollStep at hstep
  rw [hpos] at hstep
  dsimp only at hstep
  by_cases hg : env.isDragging = false ∨ env.gridAvailable = false
  · rw [if_pos hg] at hstep
    exact absurd hstep (by simp)
  · rw [if_neg hg] at hstep
    cases hstep
    refine ⟨le_max_left _ _, ?_, le_max_left _ _, ?_⟩
    · exact max_le_max le_rfl (min_le_left _ _)
    · exact max_le_max le_rfl (min_le_left _ _)

/-- Witness for C5: one step of `envC5` from offsets `(0, 0)` lands at
`(5, 0)`, inside the clamp intervals. -/
theorem C5_witness :
    0 ≤ (ScrollOffsets.mk 5 0).scrollLeft ∧
    (ScrollOffsets.mk 5 0).scrollLeft
      ≤ max 0 ((envC5.columnCount : ℚ) * envC5.defaultColumnWidth - posC5.rect.width) ∧
    0 ≤ (ScrollOffsets.mk 5 0).scrollTop ∧
    (ScrollOffsets.mk 5 0).scrollTop
      ≤ max 0 ((envC5.rowCount : ℚ) * envC5.defaultRowHeight - posC5.rect.height) :=
  C5_scroll_offsets_clamped envC5 ⟨0, 0⟩ posC5 ⟨5, 0⟩ true true rfl
    (by norm_num [scrollStep, signedSpeeds, envC5, posC5, min_def, max_def]; simp)

/-- C8: when the drag flag is cleared, the grid reference is unavailable, or
the cached pointer position is gone, the autoscroll step takes its early
`return`: it is `terminated` — no scroll commit, no selection commit (the
`onScroll` call sits inside the offset-changed branch of a `stepped` result)
and no rescheduled frame, so the loop ends. -/
theorem C8_step_terminates_without_grid (env : ScrollEnv) (cur : ScrollOffsets)
    (h : env.isDragging = false ∨ env.gridAvailable = false ∨
      env.lastMousePosition = none) :
    scrollStep env cur = StepResult.terminated := by
  unfold scrollStep
  cases hm : env.lastMousePosition with
  | none => rfl
  | some pos =>
    dsimp only
    rcases h with h | h | h
    · rw [if_pos (Or.inl h)]
    · rw [if_pos (Or.inr h)]
    · rw [hm] at h
      exact absurd h (by simp)

/-- Witness for C8: the step under `envC8` (grid reference gone) from offsets
`(0, 0)` terminates. -/
theorem C8_witness : scrollStep envC8 ⟨0, 0⟩ = StepResult.terminated :=
  C8_step_terminates_without_grid envC8 ⟨0, 0⟩ (Or.inr (Or.inl rfl))

/-- C1 counterexample: with the offsets already clamped at the right boundary
(`scrollLeft = maxScrollLeft = 800`), the step under `envC1` reports
`committed = false` while still rescheduling (`reschedule = true`): the code
skips both `scrollToPosition` and the `onScroll` selection commit for this
frame, so not *every* animation step re-derives and commits the selection
end. -/
theorem C1_counterexample :
    scrollStep envC1 ⟨800, 0⟩ = StepResult.stepped ⟨800, 0⟩ false true := by
  norm_num [scrollStep, signedSpeeds, envC1, posC1, min_def, max_def]
  simp

lemma min_shift_add (m x sp : ℚ) (hsp : 0 ≤ sp) :
    min m (min m x + sp) = min m (x + sp) := by
  rcases le_total x m with h | h
  · rw [min_eq_right h]
  · rw [min_eq_left h, min_eq_left (le_add_of_nonneg_right hsp),
      min_eq_left (by linarith)]

/-- The column mapper is monotone in the scroll offset. -/
lemma colAt_mono (x : ℚ) (cc : ℤ) {s s' : ℚ} (h : s ≤ s') :
    colAt x s cc ≤ colAt x s' cc := by
  unfold colAt
  have hfl : ⌊(x + s) / COLUMN_WIDTH⌋ ≤ ⌊(x + s') / COLUMN_WIDTH⌋ := by
    apply Int.floor_le_floor
    have hW : (0 : ℚ) < COLUMN_WIDTH := by norm_num [COLUMN_WIDTH]
    exact div_le_div_of_nonneg_right (by linarith) hW.le
  exact min_le_min (max_le_max le_rfl hfl) le_rfl

/-- One live rightward step: the horizontal offset advances by `speed` under
the clamp, the vertical offset is re-clamped in place. -/
lemma scrollStep_right (env : ScrollEnv) (pos : MousePos) (l t : ℚ)
    (hd : env.isDragging = true) (hg : env.gridAvailable = true)
    (hm : env.lastMousePosition = some pos)
    (hdir : env.direction = some Direction.right) :
    scrollStep env ⟨l, t⟩ = StepResult.stepped
      ⟨max 0 (min ((env.columnCount : ℚ) * env.defaultColumnWidth - pos.rect.width)
          (l + env.speed)),
        max 0 (min ((env.rowCount : ℚ) * env.defaultRowHeight - pos.rect.height) t)⟩
      (decide (¬(max 0 (min ((env.columnCount : ℚ) * env.defaultColumnWidth - pos.rect.width)
            (l + env.speed)) = l ∧
          max 0 (min ((env.rowCount : ℚ) * env.defaultRowHeight - pos.rect.height) t) = t)))
      true := by
  unfold scrollStep
  rw [hm]
  dsimp only
  rw [if_neg (by simp [hd, hg])]
  simp [signedSpeeds, hdir]

/-- Closed form of the loop under a live rightward drag: after `n` frames the
horizontal offset is `min maxScrollLeft (start + n * speed)` and the vertical
offset (already a fixed point of its clamp) is unchanged. -/
lemma runScroll_right_closed (env : ScrollEnv) (pos : MousePos) (s0 st : ℚ)
    (hd : env.isDragging = true) (hg : env.gridAvailable = true)
    (hm : env.lastMousePosition = some pos)
    (hdir : env.direction = some Direction.right) (hsp : 0 < env.speed)
    (hs0 : 0 ≤ s0)
    (hs0m : s0 ≤ (env.columnCount : ℚ) * env.defaultColumnWidth - pos.rect.width)
    (hst : max 0 (min ((env.rowCount : ℚ) * env.defaultRowHeight - pos.rect.height) st)
      = st) :
    ∀ n : ℕ, runScroll env ⟨s0, st⟩ n =
      ⟨min ((env.columnCount : ℚ) * env.defaultColumnWidth - pos.rect.width)
          (s0 + n * env.speed), st⟩ := by
  set maxL := (env.columnCount : ℚ) * env.defaultColumnWidth - pos.rect.width with hmaxL
  have hmaxL0 : 0 ≤ maxL := le_trans hs0 hs0m
  intro n
  induction n with
  | zero =>
    show (⟨s0, st⟩ : ScrollOffsets) = _
    rw [Nat.cast_zero, zero_mul, add_zero, min_eq_right hs0m]
  | succ n ih =>
    show (match scrollStep env (runScroll env ⟨s0, st⟩ n) with
      | StepResult.terminated => runScroll env ⟨s0, st⟩ n
      | StepResult.stepped off _ _ => off) = _
    rw [ih, scrollStep_right env pos _ _ hd hg hm hdir]
    dsimp only
    have hcur0 : 0 ≤ min maxL (s0 + n * env.speed) :=
      le_min hmaxL0 (by positivity)
    have h1 : min maxL (min maxL (s0 + n * env.speed) + env.speed)
        = min maxL (s0 + ((n : ℚ) + 1) * env.speed) := by
      rw [min_shift_add _ _ _ hsp.le]
      ring_nf
    have h2 : max 0 (min maxL (s0 + ((n : ℚ) + 1) * env.speed))
        = min maxL (s0 + ((n : ℚ) + 1) * env.speed) := by
      refine max_eq_right (le_min hmaxL0 ?_)
      positivity
    rw [h1, h2, hst]
    congr 1
    push_cast
    ring

/-- C1 (amended): under a live rightward autoscroll (drag flag set, grid
available, pointer cached, `direction = right` with positive speed), starting
from in-range offsets with the vertical offset a fixed point of its clamp, if
the coordinate mapper yields a strictly larger column at `maxScrollLeft` than
at the start offset (room to scroll), then some frame `n` commits a scroll
change (`committed = true`, so its `onScroll` selection commit fires) and the
selection end column that commit derives from the cached pointer offset and
the newly committed scroll offset is strictly greater than the column under
the pointer at drag start. -/
theorem C1_autoscroll_progress (env : ScrollEnv) (pos : MousePos) (cur : ScrollOffsets)
    (s : SelState) (r : CellRange)
    (hd : env.isDragging = true) (hg : env.gridAvailable = true)
    (hm : env.lastMousePosition = some pos)
    (hdir : env.direction = some Direction.right) (hsp : 0 < env.speed)
    (hs0 : 0 ≤ cur.scrollLeft)
    (hs0m : cur.scrollLeft ≤ (env.columnCount : ℚ) * env.defaultColumnWidth - pos.rect.width)
    (hst : max 0 (min ((env.rowCount : ℚ) * env.defaultRowHeight - pos.rect.height)
        cur.scrollTop) = cur.scrollTop)
    (hroom : colAt pos.x cur.scrollLeft env.columnCount
      < colAt pos.x ((env.columnCount : ℚ) * env.defaultColumnWidth - pos.rect.width)
          env.columnCount)
    (hsd : s.isDragging = true) (hsm : s.lastMouse = some (pos.x, pos.y))
    (hsh : s.headerDragType = none) (hsr : s.selectionRange = some r) :
    ∃ n : ℕ,
      scrollStep env (runScroll env cur n)
          = StepResult.stepped (runScroll env cur (n + 1)) true true ∧
      ((onScrollUpdate env.rowCount env.columnCount
            (runScroll env cur (n + 1)).scrollLeft
            (runScroll env cur (n + 1)).scrollTop s).selectionRange).map
          (fun q => q.«end».col)
        = some (colAt pos.x (runScroll env cur (n + 1)).scrollLeft env.columnCount) ∧
      colAt pos.x cur.scrollLeft env.columnCount
        < colAt pos.x (runScroll env cur (n + 1)).scrollLeft env.columnCount := by
  obtain ⟨s0, st⟩ := cur
  dsimp only at hs0 hs0m hst hroom
  set maxL := (env.columnCount : ℚ) * env.defaultColumnWidth - pos.rect.width with hmaxL
  have hlt : s0 < maxL := by
    by_contra hle
    push_neg at hle
    exact absurd (colAt_mono pos.x env.columnCount hle) (not_le.mpr hroom)
  have hex : ∃ n : ℕ, maxL ≤ s0 + n * env.speed := by
    obtain ⟨N, hN⟩ := exists_nat_ge ((maxL - s0) / env.speed)
    rw [div_le_iff₀ hsp] at hN
    exact ⟨N, by linarith⟩
  have hcl := runScroll_right_closed env pos s0 st hd hg hm hdir hsp hs0 hs0m hst
  set N := Nat.find hex with hNdef
  have hspec : maxL ≤ s0 + N * env.speed := Nat.find_spec hex
  have hN0 : N ≠ 0 := by
    intro h0
    rw [h0] at hspec
    push_cast at hspec
    linarith
  obtain ⟨m, hmN⟩ : ∃ m, N = m + 1 := ⟨N - 1, by omega⟩
  have hmlt : s0 + m * env.speed < maxL := by
    have := Nat.find_min hex (show m < N by omega)
    push_neg at this
    exact this
  have hrm : runScroll env ⟨s0, st⟩ m = ⟨s0 + m * env.speed, st⟩ := by
    rw [hcl m, min_eq_right hmlt.le]
  have hstep1 : maxL ≤ s0 + (m + 1 : ℕ) * env.speed := by
    rw [← hmN]
    exact_mod_cast hspec
  have hrm1 : runScroll env ⟨s0, st⟩ (m + 1) = ⟨maxL, st⟩ := by
    rw [hcl (m + 1), min_eq_left]
    exact_mod_cast hstep1
  refine ⟨m, ?_, ?_, ?_⟩
  · rw [hrm, hrm1, scrollStep_right env pos _ _ hd hg hm hdir]
    have hL : max 0 (min maxL (s0 + m * env.speed + env.speed)) = maxL := by
      rw [min_eq_left (by push_cast at hstep1; linarith),
        max_eq_right (le_trans hs0 hs0m)]
    rw [hL, hst]
    simp [hmlt.ne']
  · rw [hrm1]
    dsimp only
    unfold onScrollUpdate
    rw [if_neg (by simp [hsd]), hsm]
    dsimp only
    rw [hsr]
    dsimp only
    simp [nextRange, hsh]
  · rw [hrm1]
    exact hroom

/-- Witness for C1's amended theorem: `envC1` scrolling right from `(0, 0)`
with the pointer cached at `(250, 10)`; the pointer starts over column 2 and
the loop eventually commits a selection end in column 9. -/
theorem C1_witness :
    ∃ n : ℕ,
      scrollStep envC1 (runScroll envC1 ⟨0, 0⟩ n)
          = StepResult.stepped (runScroll envC1 ⟨0, 0⟩ (n + 1)) true true ∧
      ((onScrollUpdate envC1.rowCount envC1.columnCount
            (runScroll envC1 ⟨0, 0⟩ (n + 1)).scrollLeft
            (runScroll envC1 ⟨0, 0⟩ (n + 1)).scrollTop selC1).selectionRange).map
          (fun q => q.«end».col)
        = some (colAt posC1.x (runScroll envC1 ⟨0, 0⟩ (n + 1)).scrollLeft
            envC1.columnCount) ∧
      colAt posC1.x (ScrollOffsets.mk 0 0).scrollLeft envC1.columnCount
        < colAt posC1.x (runScroll envC1 ⟨0, 0⟩ (n + 1)).scrollLeft envC1.columnCount :=
  C1_autoscroll_progress envC1 posC1 ⟨0, 0⟩ selC1 ⟨⟨0, 2⟩, ⟨0, 2⟩⟩ rfl rfl rfl rfl
    (by norm_num [envC1])
    (by norm_num)
    (by norm_num [envC1, posC1])
    (by norm_num [envC1, posC1, min_def, max_def])
    (by norm_num [envC1, posC1, colAt, COLUMN_WIDTH, min_def, max_def])
    rfl rfl rfl rfl

end Spread1
